import Mathlib

/-!
Verification of the ordered event delivery and retry subsystem of the
faba-case-study repository: the per-entity sequence allocator
(`SequenceService`), the in-memory reordering buffer
(`EventBufferService`), the retry/backoff executor (`RetryService`),
and their composition in `EventPublisher`.

The TypeScript services are shallowly embedded as pure Lean functions.
Mutable service state (the per-entity buffer map, the sequence-counter
table) is passed explicitly; `async` methods that can reject are
embedded as `Except`-valued functions; wall-clock data (`Date` fields
such as `timestamp`, `processedAt`, `updatedAt`, backoff sleep
durations and jitter) and log output are not modelled, since no claim
under verification depends on them.
-/

namespace EventBuffer

/-- Embedding of the shared `OrderedEvent` interface.  Of its fields we
keep the ones the buffer logic reads or writes: `id`, `entityId`,
`sequenceNumber` and the `processed` flag.  The `Date`-valued
`timestamp`/`processedAt` and the tracing fields `version`,
`correlationId`, `causationId` are carried opaquely by the source and
are not modelled. -/
structure OrderedEvent where
  id : String
  entityId : String
  sequenceNumber : Nat
  processed : Bool
  deriving Repr, DecidableEq

/-- Embedding of the shared `EntityBuffer` interface (`entityId`,
`pendingEvents`, `lastProcessedSequence`). -/
structure EntityBuffer where
  entityId : String
  pendingEvents : List OrderedEvent
  lastProcessedSequence : Nat
  deriving Repr, DecidableEq

/-- The `EventBufferService.buffers` map (`Map<string, EventBuffer>`),
embedded as a function from entity ids to optional buffers. -/
def Buffers : Type := String → Option EntityBuffer

/-- The empty `buffers` map of a freshly constructed service. -/
def emptyBuffers : Buffers := fun _ => none

/-- One step of `buffer.pendingEvents.sort((a, b) => a.sequenceNumber -
b.sequenceNumber)`: insert an event into an already sorted list,
after any events with the same sequence number (JavaScript array sort
is stable). -/
def insertBySeq (e : OrderedEvent) : List OrderedEvent → List OrderedEvent
  | [] => [e]
  | x :: xs =>
    if e.sequenceNumber < x.sequenceNumber then e :: x :: xs
    else x :: insertBySeq e xs

/-- Stable sort of the pending list by `sequenceNumber`, embedding the
`pendingEvents.sort(...)` call of `addEvent`. -/
def sortBySeq : List OrderedEvent → List OrderedEvent
  | [] => []
  | x :: xs => insertBySeq x (sortBySeq xs)

/-- Result of one run of the `processBufferedEvents` drain loop:
the remaining `pendingEvents`, the final `lastProcessedSequence`, and
the ordered log of processing-callback invocations.  A log entry
`(e, true)` records a callback invocation on `e` that completed
without error (after which the source sets `e.processed = true`; the
logged event carries that mark); `(e, false)` records an invocation
that threw. -/
structure DrainResult where
  pendingEvents : List OrderedEvent
  lastProcessedSequence : Nat
  log : List (OrderedEvent × Bool)
  deriving Repr, DecidableEq

/-- The `while` drain loop of `EventBufferService.processBufferedEvents`,
parameterised by the processing callback `cb` (the source's awaited
`this.processEvent`, whose failure the loop catches).  Branches, in
source order: head at the expected sequence (process; on failure
unshift the head back and break), head stale (`sequenceNumber <
expectedSequence`: shift without invoking the callback), cold-start
gap (`sequenceGap === 1 && lastProcessedSequence === 0`:
force-process), large gap (`sequenceGap > 5`: force-process), and
otherwise wait (break). -/
def processBufferedEvents (cb : OrderedEvent → Except String Unit) :
    List OrderedEvent → Nat → DrainResult
  | [], last => ⟨[], last, []⟩
  | e :: rest, last =>
    let expected := last + 1
    if e.sequenceNumber = expected then
      match cb e with
      | .ok _ =>
        let r := processBufferedEvents cb rest e.sequenceNumber
        ⟨r.pendingEvents, r.lastProcessedSequence,
          ({ e with processed := true }, true) :: r.log⟩
      | .error _ => ⟨e :: rest, last, [(e, false)]⟩
    else if e.sequenceNumber < expected then
      processBufferedEvents cb rest last
    else
      let sequenceGap := e.sequenceNumber - expected
      if sequenceGap = 1 ∧ last = 0 then
        match cb e with
        | .ok _ =>
          let r := processBufferedEvents cb rest e.sequenceNumber
          ⟨r.pendingEvents, r.lastProcessedSequence,
            ({ e with processed := true }, true) :: r.log⟩
        | .error _ => ⟨e :: rest, last, [(e, false)]⟩
      else if sequenceGap > 5 then
        match cb e with
        | .ok _ =>
          let r := processBufferedEvents cb rest e.sequenceNumber
          ⟨r.pendingEvents, r.lastProcessedSequence,
            ({ e with processed := true }, true) :: r.log⟩
        | .error _ => ⟨e :: rest, last, [(e, false)]⟩
      else ⟨e :: rest, last, []⟩

/-- The get-or-create step of `EventBufferService.addEvent`: the
buffer for `entityId`, or a fresh one with `pendingEvents: []` and
`lastProcessedSequence: 0`. -/
def lookupOrCreate (buffers : Buffers) (entityId : String) : EntityBuffer :=
  match buffers entityId with
  | none => ⟨entityId, [], 0⟩
  | some b => b

/-- Embedding of `EventBufferService.addEvent`: get or create the
entity's buffer, push the event, sort pending events by sequence
number, then run the drain loop.  Returns the updated buffers map and
the drain's callback-invocation log.  The source catches callback
failures inside the drain, so `addEvent` always resolves: the
embedding is a total function. -/
def addEvent (cb : OrderedEvent → Except String Unit)
    (buffers : Buffers) (event : OrderedEvent) :
    Buffers × List (OrderedEvent × Bool) :=
  let buffer := lookupOrCreate buffers event.entityId
  let pending := sortBySeq (buffer.pendingEvents ++ [event])
  let r := processBufferedEvents cb pending buffer.lastProcessedSequence
  (Function.update buffers event.entityId
      (some ⟨event.entityId, r.pendingEvents, r.lastProcessedSequence⟩),
    r.log)

/-- Embedding of `EventBufferService.clearBuffer`:
`this.buffers.delete(entityId)`. -/
def clearBuffer (buffers : Buffers) (entityId : String) : Buffers :=
  Function.update buffers entityId none

/-- Sequential admission of a list of events (successive `addEvent`
calls), concatenating the callback-invocation logs in order. -/
def addEvents (cb : OrderedEvent → Except String Unit)
    (buffers : Buffers) : List OrderedEvent → Buffers × List (OrderedEvent × Bool)
  | [] => (buffers, [])
  | e :: es =>
    let r := addEvent cb buffers e
    let r2 := addEvents cb r.1 es
    (r2.1, r.2 ++ r2.2)

/-- The always-succeeding processing callback (the source's
`processEvent`/`handleGenericEvent`, which only logs and sleeps). -/
def okCb : OrderedEvent → Except String Unit := fun _ => .ok ()

end EventBuffer

namespace Sequence

/-- Embedding of the `EventSequenceEntity` row of the `event_sequences`
table (`entityId`, `entityType`, `lastSequenceNumber`; the
`updatedAt` timestamp is not modelled). -/
structure EventSequenceEntity where
  entityId : String
  entityType : String
  lastSequenceNumber : Nat
  deriving Repr, DecidableEq

/-- The sequence-counter table, one optional row per
`(entityId, entityType)` primary key. -/
def Db : Type := String × String → Option EventSequenceEntity

/-- A table with no rows. -/
def emptyDb : Db := fun _ => none

/-- Embedding of `SequenceService.getNextSequenceNumber`.  The source
runs `findOne` with a `pessimistic_write` row lock inside a database
transaction, making the whole read-modify-write atomic; the embedding
is that atomic step as a pure function from table to (returned
sequence number, updated table).  No row: create one with
`lastSequenceNumber: 1` and return `1`.  Row present: increment by
one, save, return the new value.  The source performs no validation
of `entityId` or `entityType`. -/
def getNextSequenceNumber (db : Db) (entityId entityType : String) :
    Nat × Db :=
  match db (entityId, entityType) with
  | none =>
    (1, Function.update db (entityId, entityType)
      (some ⟨entityId, entityType, 1⟩))
  | some sequence =>
    let sequence' :=
      { sequence with lastSequenceNumber := sequence.lastSequenceNumber + 1 }
    (sequence'.lastSequenceNumber,
      Function.update db (entityId, entityType) (some sequence'))

/-- Embedding of `SequenceService.getCurrentSequence`:
`sequence?.lastSequenceNumber || 0`. -/
def getCurrentSequence (db : Db) (entityId entityType : String) : Nat :=
  match db (entityId, entityType) with
  | none => 0
  | some s => s.lastSequenceNumber

/-- `n` back-to-back allocations for a fixed pair.  Each
`getNextSequenceNumber` call is one atomic transaction under the
source's `pessimistic_write` lock, so any execution of `n` concurrent
callers is serialized into some order of `n` such steps; since the
steps are identical, every serialization is this computation. -/
def allocateMany (db : Db) (entityId entityType : String) :
    Nat → List Nat × Db
  | 0 => ([], db)
  | n + 1 =>
    let r := getNextSequenceNumber db entityId entityType
    let r2 := allocateMany r.2 entityId entityType n
    (r.1 :: r2.1, r2.2)

end Sequence

namespace Retry

/-- The default retryable error signatures of the order-service
`RetryService` constructor (`this.defaultRetryOptions.retryableErrors`). -/
def defaultRetryableErrors : List String :=
  ["ECONNREFUSED", "ENOTFOUND", "ETIMEDOUT", "ECONNRESET",
   "Connection closed", "Channel closed", "Connection lost",
   "Connection terminated", "Connection timeout", "PRECONDITION_FAILED",
   "SERVICE_UNAVAILABLE", "TIMEOUT"]

/-- Whether `p` is a leading run of `s` (character lists). -/
def startsWithChars : List Char → List Char → Bool
  | [], _ => true
  | _ :: _, [] => false
  | p :: ps, c :: cs => p = c && startsWithChars ps cs

/-- Whether `pat` occurs contiguously in a character list. -/
def containsChars (pat : List Char) : List Char → Bool
  | [] => pat.isEmpty
  | c :: cs => startsWithChars pat (c :: cs) || containsChars pat cs

/-- JavaScript `String.prototype.includes`: substring containment. -/
def includes (s pattern : String) : Bool :=
  containsChars pattern.data s.data

/-- Embedding of `RetryService.isRetryableError` (order-service
version): the error message contains one of the retryable-error
signatures as a substring
(`retryableErrors.some(r => errorMessage.includes(r))`). -/
def isRetryableError (message : String) (retryableErrors : List String) : Bool :=
  retryableErrors.any (fun r => includes message r)

/-- Outcome of one `executeWithRetry` call.  `success` is a returned
result; `rawError` is an underlying error rethrown unchanged (the
non-retryable path); `exhausted attempts lastError` is the synthetic
error thrown when the attempt budget is spent (the source's
`new Error('Operation failed after N attempts: ... Last error: ...')`),
carrying the stated total attempt count and the final underlying
error message it wraps. -/
inductive RetryOutcome (α : Type) where
  | success : α → RetryOutcome α
  | rawError : String → RetryOutcome α
  | exhausted : Nat → String → RetryOutcome α
  deriving Repr, DecidableEq

/-- The `for (attempt = 0; attempt <= maxRetries; attempt++)` loop of
`RetryService.executeWithRetry` (order-service version).  `operation
i` is the result of the `i`-th invocation of the operation (the
source's operation is impure; invocations are indexed in order).
`remaining` is `maxRetries - attempt`, so the source's exhaustion
test `attempt === maxRetries` is `remaining = 0` here; at exhaustion
`attempt + 1 = maxRetries + 1` is the attempt count stated by the
thrown error.  Backoff delay and jitter before a retry are not
modelled.  Returns the outcome together with the number of times the
operation was invoked. -/
def retryGo (operation : Nat → Except String α) (retryableErrors : List String) :
    Nat → Nat → RetryOutcome α × Nat
  | attempt, remaining =>
    match operation attempt with
    | .ok a => (.success a, attempt + 1)
    | .error msg =>
      if isRetryableError msg retryableErrors = false then
        (.rawError msg, attempt + 1)
      else
        match remaining with
        | 0 => (.exhausted (attempt + 1) msg, attempt + 1)
        | r + 1 => retryGo operation retryableErrors (attempt + 1) r

/-- Embedding of `RetryService.executeWithRetry` (order-service
version), entered at attempt `0` with the full retry budget. -/
def executeWithRetry (operation : Nat → Except String α) (maxRetries : Nat)
    (retryableErrors : List String) : RetryOutcome α × Nat :=
  retryGo operation retryableErrors 0 maxRetries

end Retry

namespace Publisher

/-- `getRetryConfigByType('rabbitmq').maxRetries` — the retry budget
`EventPublisher` selects via `{ operationType: 'rabbitmq' }`. -/
def rabbitmqMaxRetries : Nat := 3

/-- The mutable state `publishOrderCreated` touches: the
sequence-counter table (via `SequenceService`) and the in-memory
buffer map (via `EventBufferService`). -/
structure PublishState where
  db : Sequence.Db
  buffers : EventBuffer.Buffers

/-- Embedding of `EventPublisher.publishToInventory`: wrap the
emission in `retryService.executeWithRetry(..., { operationType:
'rabbitmq' }, ...)` and rethrow any failure.  `emitOp i` is the
result of the `i`-th emission attempt. -/
def publishToInventory (emitOp : Nat → Except String Unit) :
    Retry.RetryOutcome Unit :=
  (Retry.executeWithRetry emitOp rabbitmqMaxRetries
    Retry.defaultRetryableErrors).1

/-- Embedding of `EventPublisher.publishToNotification`, identical
retry wrapping. -/
def publishToNotification (emitOp : Nat → Except String Unit) :
    Retry.RetryOutcome Unit :=
  (Retry.executeWithRetry emitOp rabbitmqMaxRetries
    Retry.defaultRetryableErrors).1

/-- Embedding of `EventPublisher.publishOrderCreated`: allocate the
next sequence number for `(order.id, 'order')`, build the
`OrderedEvent` (with `processed: false`) and admit it to the buffer,
then emit to the inventory service and, if that succeeded, to the
notification service; the first failure propagates as the result's
error, with no rollback of the allocation or the admission.  The
generated UUID is the parameter `eventId`; the event payload and
headers are carried opaquely by the source and not modelled. -/
def publishOrderCreated (cb : EventBuffer.OrderedEvent → Except String Unit)
    (invEmit notifEmit : Nat → Except String Unit)
    (orderId eventId : String) (st : PublishState) :
    Except (Retry.RetryOutcome Unit) Unit × PublishState :=
  let alloc := Sequence.getNextSequenceNumber st.db orderId "order"
  let orderedEvent : EventBuffer.OrderedEvent := ⟨eventId, orderId, alloc.1, false⟩
  let admitted := EventBuffer.addEvent cb st.buffers orderedEvent
  let st' : PublishState := ⟨alloc.2, admitted.1⟩
  match publishToInventory invEmit with
  | .success _ =>
    match publishToNotification notifEmit with
    | .success _ => (.ok (), st')
    | o => (.error o, st')
  | o => (.error o, st')

end Publisher

namespace EventBuffer

/-- A stale head (`sequenceNumber ≤ lastProcessedSequence`, i.e.
`sequenceNumber < expectedSequence`) is shifted off without invoking
the callback: the drain continues on the tail unchanged. -/
theorem drain_skip (cb : OrderedEvent → Except String Unit)
    (e : OrderedEvent) (rest : List OrderedEvent) (last : Nat)
    (h : e.sequenceNumber ≤ last) :
    processBufferedEvents cb (e :: rest) last = processBufferedEvents cb rest last := by
  simp only [processBufferedEvents]
  rw [if_neg (by omega), if_pos (by omega)]

/-- The gap branch of the drain loop in closed form: with a gap at the
head, the loop force-processes exactly under the cold-start condition
(`lastProcessedSequence = 0` and head sequence `2`) or a gap greater
than `5`, and otherwise stops with nothing invoked. -/
theorem drain_gap_step (cb : OrderedEvent → Except String Unit)
    (e : OrderedEvent) (rest : List OrderedEvent) (last : Nat)
    (h : last + 1 < e.sequenceNumber) :
    processBufferedEvents cb (e :: rest) last =
      if (last = 0 ∧ e.sequenceNumber = 2) ∨ e.sequenceNumber - (last + 1) > 5 then
        (match cb e with
         | .ok _ =>
           let r := processBufferedEvents cb rest e.sequenceNumber
           ⟨r.pendingEvents, r.lastProcessedSequence,
             ({ e with processed := true }, true) :: r.log⟩
         | .error _ => ⟨e :: rest, last, [(e, false)]⟩)
      else ⟨e :: rest, last, []⟩ := by
  simp only [processBufferedEvents]
  rw [if_neg (by omega), if_neg (by omega)]
  by_cases h1 : e.sequenceNumber - (last + 1) = 1 ∧ last = 0
  · rw [if_pos h1, if_pos (Or.inl ⟨h1.2, by omega⟩)]
  · rw [if_neg h1]
    by_cases h2 : e.sequenceNumber - (last + 1) > 5
    · rw [if_pos h2, if_pos (Or.inr h2)]
    · rw [if_neg h2, if_neg (by omega)]

end EventBuffer

namespace Sequence

/-- One allocation returns the incremented counter and stores it,
whether or not a row existed before. -/
theorem getNext_val (db : Db) (eid et : String) :
    (getNextSequenceNumber db eid et).1 = getCurrentSequence db eid et + 1 ∧
    getCurrentSequence (getNextSequenceNumber db eid et).2 eid et =
      getCurrentSequence db eid et + 1 := by
  unfold getNextSequenceNumber getCurrentSequence
  cases hdb : db (eid, et) <;> simp [Function.update_same, hdb]

/-- Iterated allocation from counter value `k` returns exactly
`[k+1, ..., k+n]` and leaves the counter at `k + n`. -/
theorem allocateMany_returns (eid et : String) :
    ∀ (n : Nat) (db : Db),
      (allocateMany db eid et n).1 =
        List.range' (getCurrentSequence db eid et + 1) n ∧
      getCurrentSequence (allocateMany db eid et n).2 eid et =
        getCurrentSequence db eid et + n := by
  intro n
  induction n with
  | zero => intro db; simp [allocateMany]
  | succ n ih =>
    intro db
    have h1 := getNext_val db eid et
    have h2 := ih (getNextSequenceNumber db eid et).2
    simp only [allocateMany]
    rw [List.range'_succ]
    refine ⟨?_, ?_⟩
    · rw [h1.1, h2.1, h1.2]
    · rw [h2.2, h1.2]; omega

end Sequence

namespace Retry

/-- If every attempt up to the budget fails with a retryable error, the
loop exhausts the budget and reports the wrapped final error with the
total attempt count, having invoked the operation once per attempt. -/
theorem retryGo_exhausts {α : Type} (op : Nat → Except String α)
    (msgs : Nat → String) (errs : List String) :
    ∀ (remaining attempt : Nat),
      (∀ i, attempt ≤ i → i ≤ attempt + remaining →
        op i = Except.error (msgs i) ∧ isRetryableError (msgs i) errs = true) →
      retryGo op errs attempt remaining =
        (.exhausted (attempt + remaining + 1) (msgs (attempt + remaining)),
          attempt + remaining + 1) := by
  intro remaining
  induction remaining with
  | zero =>
    intro attempt h
    have ha := h attempt le_rfl (by omega)
    simp only [retryGo, ha.1, ha.2]
    simp only [Bool.true_eq_false, if_false, Nat.add_zero]
  | succ r ih =>
    intro attempt h
    have ha := h attempt le_rfl (by omega)
    have hrec := ih (attempt + 1) (fun i h1 h2 => h i (by omega) (by omega))
    have harith : attempt + 1 + r = attempt + (r + 1) := by omega
    conv_lhs => rw [retryGo]
    rw [ha.1]
    simp only [ha.2, Bool.true_eq_false, if_false]
    rw [hrec, harith]

end Retry

/-- C1: admitting events with sequence numbers 3, 1, 2 (in that arrival
order) for the same entityId into a fresh buffer results in exactly
three processing-callback invocations, in ascending order 1, 2, 3,
each completing without error and marked `processed = true`; the
buffer ends drained with watermark 3. -/
theorem C1_in_order_release (eid : String) :
    (EventBuffer.addEvents EventBuffer.okCb EventBuffer.emptyBuffers
        [⟨"a", eid, 3, false⟩, ⟨"b", eid, 1, false⟩, ⟨"c", eid, 2, false⟩]).2 =
      [(⟨"b", eid, 1, true⟩, true), (⟨"c", eid, 2, true⟩, true),
       (⟨"a", eid, 3, true⟩, true)] ∧
    (EventBuffer.addEvents EventBuffer.okCb EventBuffer.emptyBuffers
        [⟨"a", eid, 3, false⟩, ⟨"b", eid, 1, false⟩, ⟨"c", eid, 2, false⟩]).1 eid =
      some ⟨eid, [], 3⟩ := by
  constructor <;>
    simp [EventBuffer.addEvents, EventBuffer.addEvent, EventBuffer.lookupOrCreate,
      EventBuffer.processBufferedEvents, EventBuffer.sortBySeq, EventBuffer.insertBySeq,
      EventBuffer.emptyBuffers, EventBuffer.okCb, Function.update_same]

/-- Witness for C1 at the concrete entity id `"order-1"`. -/
theorem C1_in_order_release_witness :
    (EventBuffer.addEvents EventBuffer.okCb EventBuffer.emptyBuffers
        [⟨"a", "order-1", 3, false⟩, ⟨"b", "order-1", 1, false⟩,
         ⟨"c", "order-1", 2, false⟩]).2 =
      [(⟨"b", "order-1", 1, true⟩, true), (⟨"c", "order-1", 2, true⟩, true),
       (⟨"a", "order-1", 3, true⟩, true)] ∧
    (EventBuffer.addEvents EventBuffer.okCb EventBuffer.emptyBuffers
        [⟨"a", "order-1", 3, false⟩, ⟨"b", "order-1", 1, false⟩,
         ⟨"c", "order-1", 2, false⟩]).1 "order-1" =
      some ⟨"order-1", [], 3⟩ :=
  C1_in_order_release "order-1"

/-- C2: with a gap at the head of the pending queue (head sequence
greater than `lastProcessedSequence + 1`), the drain loop invokes the
callback iff the cold-start condition (`lastProcessedSequence = 0`
and head sequence `2`) or a gap greater than `5` holds, the first
invocation being on the head; otherwise it stops with state
unchanged.  Concretely, admitting only sequence 5 into a fresh buffer
invokes nothing and leaves the event pending, while admitting only
sequence 2 invokes the callback on it and advances the watermark to
2. -/
theorem C2_gap_policy :
    (∀ (cb : EventBuffer.OrderedEvent → Except String Unit)
        (e : EventBuffer.OrderedEvent) (rest : List EventBuffer.OrderedEvent) (last : Nat),
        last + 1 < e.sequenceNumber →
        (((EventBuffer.processBufferedEvents cb (e :: rest) last).log ≠ []) ↔
            ((last = 0 ∧ e.sequenceNumber = 2) ∨ e.sequenceNumber - (last + 1) > 5)) ∧
          (∀ p, (EventBuffer.processBufferedEvents cb (e :: rest) last).log.head? = some p →
            p.1.sequenceNumber = e.sequenceNumber) ∧
          (¬((last = 0 ∧ e.sequenceNumber = 2) ∨ e.sequenceNumber - (last + 1) > 5) →
            EventBuffer.processBufferedEvents cb (e :: rest) last = ⟨e :: rest, last, []⟩)) ∧
    (∀ eid : String,
      EventBuffer.addEvent EventBuffer.okCb EventBuffer.emptyBuffers ⟨"a", eid, 5, false⟩ =
        (Function.update EventBuffer.emptyBuffers eid
          (some ⟨eid, [⟨"a", eid, 5, false⟩], 0⟩), []) ∧
      EventBuffer.addEvent EventBuffer.okCb EventBuffer.emptyBuffers ⟨"a", eid, 2, false⟩ =
        (Function.update EventBuffer.emptyBuffers eid (some ⟨eid, [], 2⟩),
          [(⟨"a", eid, 2, true⟩, true)])) := by
  constructor
  · intro cb e rest last h
    rw [EventBuffer.drain_gap_step cb e rest last h]
    by_cases hc : (last = 0 ∧ e.sequenceNumber = 2) ∨ e.sequenceNumber - (last + 1) > 5
    · rw [if_pos hc]
      refine ⟨⟨fun _ => hc, fun _ => ?_⟩, ?_, fun hn => absurd hc hn⟩
      · cases hcb : cb e <;> simp
      · intro p hp
        cases hcb : cb e <;> rw [hcb] at hp <;> simp at hp <;> subst hp <;> rfl
    · rw [if_neg hc]
      exact ⟨⟨fun hne => absurd rfl hne, fun hcc => absurd hcc hc⟩, by simp, fun _ => rfl⟩
  · intro eid
    constructor <;>
      simp [EventBuffer.addEvent, EventBuffer.lookupOrCreate,
        EventBuffer.processBufferedEvents, EventBuffer.sortBySeq, EventBuffer.insertBySeq,
        EventBuffer.emptyBuffers, EventBuffer.okCb]

/-- Witness for C2: a gap head with sequence 7 on a fresh buffer
force-processes (gap 6 > 5), and the concrete sequence-5 wait
scenario. -/
theorem C2_gap_policy_witness :
    (((EventBuffer.processBufferedEvents EventBuffer.okCb [⟨"a", "x", 7, false⟩] 0).log ≠ []) ↔
      ((0 = 0 ∧ 7 = 2) ∨ 7 - (0 + 1) > 5)) ∧
    EventBuffer.addEvent EventBuffer.okCb EventBuffer.emptyBuffers ⟨"a", "x", 5, false⟩ =
      (Function.update EventBuffer.emptyBuffers "x"
        (some ⟨"x", [⟨"a", "x", 5, false⟩], 0⟩), []) :=
  ⟨(C2_gap_policy.1 EventBuffer.okCb ⟨"a", "x", 7, false⟩ [] 0 (by decide)).1,
   (C2_gap_policy.2 "x").1⟩

/-- C3: a head event with sequence number at most the watermark is
discarded by the drain loop without a callback invocation (the drain
result equals that of the remaining queue); admitting sequence 1
twice for the same fresh entity yields exactly one callback
invocation. -/
theorem C3_duplicate_suppression :
    (∀ (cb : EventBuffer.OrderedEvent → Except String Unit)
        (e : EventBuffer.OrderedEvent) (rest : List EventBuffer.OrderedEvent) (last : Nat),
        e.sequenceNumber ≤ last →
        EventBuffer.processBufferedEvents cb (e :: rest) last =
          EventBuffer.processBufferedEvents cb rest last) ∧
    (∀ eid : String,
      (EventBuffer.addEvents EventBuffer.okCb EventBuffer.emptyBuffers
          [⟨"a", eid, 1, false⟩, ⟨"a", eid, 1, false⟩]).2 =
        [(⟨"a", eid, 1, true⟩, true)] ∧
      (EventBuffer.addEvents EventBuffer.okCb EventBuffer.emptyBuffers
          [⟨"a", eid, 1, false⟩, ⟨"a", eid, 1, false⟩]).1 eid = some ⟨eid, [], 1⟩) := by
  refine ⟨EventBuffer.drain_skip, fun eid => ?_⟩
  constructor <;>
    simp [EventBuffer.addEvents, EventBuffer.addEvent, EventBuffer.lookupOrCreate,
      EventBuffer.processBufferedEvents, EventBuffer.sortBySeq, EventBuffer.insertBySeq,
      EventBuffer.emptyBuffers, EventBuffer.okCb, Function.update_same]

/-- Witness for C3: a stale sequence-1 head under watermark 5 is
skipped, and the concrete duplicate-admission scenario. -/
theorem C3_duplicate_suppression_witness :
    EventBuffer.processBufferedEvents EventBuffer.okCb [⟨"a", "x", 1, false⟩] 5 =
      EventBuffer.processBufferedEvents EventBuffer.okCb [] 5 ∧
    (EventBuffer.addEvents EventBuffer.okCb EventBuffer.emptyBuffers
        [⟨"a", "x", 1, false⟩, ⟨"a", "x", 1, false⟩]).2 =
      [(⟨"a", "x", 1, true⟩, true)] :=
  ⟨C3_duplicate_suppression.1 EventBuffer.okCb ⟨"a", "x", 1, false⟩ [] 5 (by decide),
   (C3_duplicate_suppression.2 "x").1⟩

/-- C4: `getNextSequenceNumber` creates a row with value 1 and returns
1 when none exists; increments an existing row's value by exactly one
and returns it; successive allocations from an empty table return
1, 2, 3, ...; and the stored counter never decreases across an
allocation. -/
theorem C4_sequence_allocator_contract :
    (∀ (db : Sequence.Db) (eid et : String),
        db (eid, et) = none →
        Sequence.getNextSequenceNumber db eid et =
          (1, Function.update db (eid, et) (some ⟨eid, et, 1⟩))) ∧
    (∀ (db : Sequence.Db) (eid et : String) (row : Sequence.EventSequenceEntity),
        db (eid, et) = some row →
        Sequence.getNextSequenceNumber db eid et =
          (row.lastSequenceNumber + 1,
            Function.update db (eid, et)
              (some { row with lastSequenceNumber := row.lastSequenceNumber + 1 }))) ∧
    (∀ (eid et : String) (n : Nat),
        (Sequence.allocateMany Sequence.emptyDb eid et n).1 = List.range' 1 n) ∧
    (∀ (db : Sequence.Db) (eid et : String),
        Sequence.getCurrentSequence db eid et ≤
          Sequence.getCurrentSequence
            (Sequence.getNextSequenceNumber db eid et).2 eid et) := by
  refine ⟨?_, ?_, ?_, ?_⟩
  · intro db eid et h; simp [Sequence.getNextSequenceNumber, h]
  · intro db eid et row h; simp [Sequence.getNextSequenceNumber, h]
  · intro eid et n
    have h := (Sequence.allocateMany_returns eid et n Sequence.emptyDb).1
    simpa [Sequence.getCurrentSequence, Sequence.emptyDb] using h
  · intro db eid et
    have h := Sequence.getNext_val db eid et
    omega

/-- Witness for C4: the first allocation for `("a", "order")` on an
empty table returns 1, and three allocations return `[1, 2, 3]`. -/
theorem C4_sequence_allocator_contract_witness :
    Sequence.getNextSequenceNumber Sequence.emptyDb "a" "order" =
      (1, Function.update Sequence.emptyDb ("a", "order") (some ⟨"a", "order", 1⟩)) ∧
    (Sequence.allocateMany Sequence.emptyDb "a" "order" 3).1 = [1, 2, 3] := by
  refine ⟨C4_sequence_allocator_contract.1 Sequence.emptyDb "a" "order" rfl, ?_⟩
  rw [C4_sequence_allocator_contract.2.2.1 "a" "order" 3]
  decide

/-- C5: `executeWithRetry` with `maxRetries = 2` on an operation that
always fails with a retryable error invokes the operation exactly 3
times and fails with the synthetic retry-exhausted error stating 3
attempts and wrapping the final underlying error (not the raw
error). -/
theorem C5_retry_exhaustion (op : Nat → Except String Unit) (msgs : Nat → String)
    (h : ∀ i, i ≤ 2 → op i = Except.error (msgs i) ∧
      Retry.isRetryableError (msgs i) Retry.defaultRetryableErrors = true) :
    Retry.executeWithRetry op 2 Retry.defaultRetryableErrors =
      (Retry.RetryOutcome.exhausted 3 (msgs 2), 3) := by
  have hx := Retry.retryGo_exhausts op msgs Retry.defaultRetryableErrors 2 0
    (fun i h1 h2 => h i (by omega))
  simpa [Retry.executeWithRetry] using hx

/-- Witness for C5: the always-`TIMEOUT` operation. -/
theorem C5_retry_exhaustion_witness :
    Retry.executeWithRetry (fun _ => (Except.error "TIMEOUT" : Except String Unit)) 2
        Retry.defaultRetryableErrors =
      (Retry.RetryOutcome.exhausted 3 "TIMEOUT", 3) :=
  C5_retry_exhaustion (fun _ => Except.error "TIMEOUT") (fun _ => "TIMEOUT")
    (fun i _ => ⟨rfl,
      (by decide : Retry.isRetryableError "TIMEOUT" Retry.defaultRetryableErrors = true)⟩)

/-- C6: when the processing callback throws on the head event at the
expected sequence, `addEvent` leaves that event re-inserted at the
front of `pendingEvents` with the watermark and the event (its
`processed` flag included) unchanged, logs the single failed
invocation, and returns normally with that state — the error does
not escape `addEvent`. -/
theorem C6_callback_failure_requeues
    (cb : EventBuffer.OrderedEvent → Except String Unit)
    (buffers : EventBuffer.Buffers) (event hd : EventBuffer.OrderedEvent)
    (t : List EventBuffer.OrderedEvent) (msg : String)
    (hsort : EventBuffer.sortBySeq
        ((EventBuffer.lookupOrCreate buffers event.entityId).pendingEvents ++ [event]) =
      hd :: t)
    (hseq : hd.sequenceNumber =
      (EventBuffer.lookupOrCreate buffers event.entityId).lastProcessedSequence + 1)
    (hcb : cb hd = Except.error msg) :
    EventBuffer.addEvent cb buffers event =
      (Function.update buffers event.entityId
          (some ⟨event.entityId, hd :: t,
            (EventBuffer.lookupOrCreate buffers event.entityId).lastProcessedSequence⟩),
        [(hd, false)]) := by
  simp only [EventBuffer.addEvent]
  rw [hsort]
  simp only [EventBuffer.processBufferedEvents]
  rw [if_pos hseq, hcb]

/-- Witness for C6: a fresh buffer, an event with sequence 1, and a
callback that throws. -/
theorem C6_callback_failure_requeues_witness :
    EventBuffer.addEvent (fun _ => Except.error "boom") EventBuffer.emptyBuffers
        ⟨"a", "x", 1, false⟩ =
      (Function.update EventBuffer.emptyBuffers "x"
          (some ⟨"x", [⟨"a", "x", 1, false⟩], 0⟩),
        [(⟨"a", "x", 1, false⟩, false)]) :=
  C6_callback_failure_requeues (fun _ => Except.error "boom") EventBuffer.emptyBuffers
    ⟨"a", "x", 1, false⟩ ⟨"a", "x", 1, false⟩ [] "boom" rfl rfl rfl

/-- C7: `n` concurrent allocations for one `(entityId, entityType)`
pair — serialized into `n` atomic lock-guarded transactions, which
the source's `pessimistic_write` transaction guarantees — return
exactly the values `{k+1, ..., k+n}` where `k` is the prior counter
value (0 if no row existed): the returned list is `[k+1, ..., k+n]`
in allocation order, without duplicates, and membership is exactly
the integer interval. -/
theorem C7_concurrent_allocations_serialized (db : Sequence.Db) (eid et : String)
    (n k : Nat) (hk : Sequence.getCurrentSequence db eid et = k) :
    (Sequence.allocateMany db eid et n).1 = List.range' (k + 1) n ∧
    (Sequence.allocateMany db eid et n).1.Nodup ∧
    (∀ v, v ∈ (Sequence.allocateMany db eid et n).1 ↔ k + 1 ≤ v ∧ v ≤ k + n) := by
  have h := (Sequence.allocateMany_returns eid et n db).1
  rw [hk] at h
  refine ⟨h, ?_, ?_⟩
  · rw [h]; exact List.nodup_range' (k + 1) n
  · intro v; rw [h, List.mem_range'_1]; omega

/-- Witness for C7: three allocations on an empty table (`k = 0`)
return `[1, 2, 3]` with no duplicates. -/
theorem C7_concurrent_allocations_serialized_witness :
    (Sequence.allocateMany Sequence.emptyDb "a" "order" 3).1 = List.range' 1 3 ∧
    (Sequence.allocateMany Sequence.emptyDb "a" "order" 3).1.Nodup :=
  ⟨(C7_concurrent_allocations_serialized Sequence.emptyDb "a" "order" 3 0 rfl).1,
   (C7_concurrent_allocations_serialized Sequence.emptyDb "a" "order" 3 0 rfl).2.1⟩

/-- C8: the specification requires `getNextSequenceNumber` to fail
with an InvalidArgument error on an empty `entityId` or `entityType`
before touching the table, and the repository's unit test expects a
rejection for empty parameters; the source method, however, performs
no input validation.  Evaluating the embedded source at the failing
input `("", "order")` on an empty table: the call succeeds, returns
1, and creates a counter row keyed by the empty entityId. -/
theorem C8_empty_ids_not_rejected :
    Sequence.getNextSequenceNumber Sequence.emptyDb "" "order" =
      (1, Function.update Sequence.emptyDb ("", "order")
        (some ⟨"", "order", 1⟩)) ∧
    Sequence.getCurrentSequence
      (Sequence.getNextSequenceNumber Sequence.emptyDb "" "order").2 "" "order" = 1 := by
  constructor
  · rfl
  · simp [Sequence.getNextSequenceNumber, Sequence.getCurrentSequence,
      Sequence.emptyDb, Function.update_same]

/-- C9: if the inventory emission ultimately fails (the retry wrapper
does not return success), `publishOrderCreated` propagates that
failure as its error result while the state it returns keeps the
incremented sequence counter for `(orderId, "order")` and the buffer
admission of the ordered event — no compensating decrement and no
rollback. -/
theorem C9_no_rollback_on_emission_failure
    (cb : EventBuffer.OrderedEvent → Except String Unit)
    (invEmit notifEmit : Nat → Except String Unit)
    (orderId eventId : String) (st : Publisher.PublishState)
    (hfail : ∀ a, Publisher.publishToInventory invEmit ≠ Retry.RetryOutcome.success a) :
    (∃ o, Publisher.publishOrderCreated cb invEmit notifEmit orderId eventId st =
        (Except.error o,
          ⟨(Sequence.getNextSequenceNumber st.db orderId "order").2,
            (EventBuffer.addEvent cb st.buffers
              ⟨eventId, orderId,
                (Sequence.getNextSequenceNumber st.db orderId "order").1, false⟩).1⟩)) ∧
    Sequence.getCurrentSequence
        (Publisher.publishOrderCreated cb invEmit notifEmit orderId eventId st).2.db
        orderId "order" =
      Sequence.getCurrentSequence st.db orderId "order" + 1 := by
  have hdb : (Publisher.publishOrderCreated cb invEmit notifEmit orderId eventId st).2.db =
      (Sequence.getNextSequenceNumber st.db orderId "order").2 := by
    simp only [Publisher.publishOrderCreated]
  refine ⟨?_, ?_⟩
  · cases ho : Publisher.publishToInventory invEmit with
    | success a => exact absurd ho (hfail a)
    | rawError s =>
      exact ⟨.rawError s, by simp only [Publisher.publishOrderCreated, ho]⟩
    | exhausted n s =>
      exact ⟨.exhausted n s, by simp only [Publisher.publishOrderCreated, ho]⟩
  · rw [hdb, (Sequence.getNext_val st.db orderId "order").2]

/-- Witness for C9: an always-`TIMEOUT` inventory emission against an
empty table and empty buffers. -/
theorem C9_no_rollback_on_emission_failure_witness :
    (∃ o, Publisher.publishOrderCreated EventBuffer.okCb
        (fun _ => Except.error "TIMEOUT") (fun _ => Except.ok ()) "o1" "e1"
        ⟨Sequence.emptyDb, EventBuffer.emptyBuffers⟩ =
        (Except.error o,
          ⟨(Sequence.getNextSequenceNumber Sequence.emptyDb "o1" "order").2,
            (EventBuffer.addEvent EventBuffer.okCb EventBuffer.emptyBuffers
              ⟨"e1", "o1",
                (Sequence.getNextSequenceNumber Sequence.emptyDb "o1" "order").1,
                false⟩).1⟩)) ∧
    Sequence.getCurrentSequence
        (Publisher.publishOrderCreated EventBuffer.okCb
          (fun _ => Except.error "TIMEOUT") (fun _ => Except.ok ()) "o1" "e1"
          ⟨Sequence.emptyDb, EventBuffer.emptyBuffers⟩).2.db "o1" "order" =
      Sequence.getCurrentSequence Sequence.emptyDb "o1" "order" + 1 :=
  C9_no_rollback_on_emission_failure EventBuffer.okCb
    (fun _ => Except.error "TIMEOUT") (fun _ => Except.ok ()) "o1" "e1"
    ⟨Sequence.emptyDb, EventBuffer.emptyBuffers⟩
    (fun a => by cases a; decide)

/-- C10: `clearBuffer` deletes the whole entity buffer including the
watermark: after processing sequence 1 and clearing, the buffers map
holds nothing for the entity, the next `addEvent` works on a fresh
buffer with watermark 0, and re-admitting the already processed
sequence 1 invokes the callback again. -/
theorem C10_clear_loses_watermark (eid : String) :
    (EventBuffer.addEvent EventBuffer.okCb EventBuffer.emptyBuffers ⟨"a", eid, 1, false⟩).2 =
      [(⟨"a", eid, 1, true⟩, true)] ∧
    (EventBuffer.addEvent EventBuffer.okCb EventBuffer.emptyBuffers ⟨"a", eid, 1, false⟩).1 eid =
      some ⟨eid, [], 1⟩ ∧
    EventBuffer.clearBuffer
      (EventBuffer.addEvent EventBuffer.okCb EventBuffer.emptyBuffers ⟨"a", eid, 1, false⟩).1
      eid eid = none ∧
    EventBuffer.lookupOrCreate
      (EventBuffer.clearBuffer
        (EventBuffer.addEvent EventBuffer.okCb EventBuffer.emptyBuffers ⟨"a", eid, 1, false⟩).1
        eid) eid = ⟨eid, [], 0⟩ ∧
    (EventBuffer.addEvent EventBuffer.okCb
      (EventBuffer.clearBuffer
        (EventBuffer.addEvent EventBuffer.okCb EventBuffer.emptyBuffers ⟨"a", eid, 1, false⟩).1
        eid) ⟨"a", eid, 1, false⟩).2 = [(⟨"a", eid, 1, true⟩, true)] ∧
    (EventBuffer.addEvent EventBuffer.okCb
      (EventBuffer.clearBuffer
        (EventBuffer.addEvent EventBuffer.okCb EventBuffer.emptyBuffers ⟨"a", eid, 1, false⟩).1
        eid) ⟨"a", eid, 1, false⟩).1 eid = some ⟨eid, [], 1⟩ := by
  refine ⟨?_, ?_, ?_, ?_, ?_, ?_⟩ <;>
    simp [EventBuffer.addEvent, EventBuffer.lookupOrCreate, EventBuffer.clearBuffer,
      EventBuffer.processBufferedEvents, EventBuffer.sortBySeq, EventBuffer.insertBySeq,
      EventBuffer.emptyBuffers, EventBuffer.okCb, Function.update_same]

/-- Witness for C10 at the concrete entity id `"order-2"`. -/
theorem C10_clear_loses_watermark_witness :
    (EventBuffer.addEvent EventBuffer.okCb EventBuffer.emptyBuffers
        ⟨"a", "order-2", 1, false⟩).2 = [(⟨"a", "order-2", 1, true⟩, true)] ∧
    (EventBuffer.addEvent EventBuffer.okCb EventBuffer.emptyBuffers
        ⟨"a", "order-2", 1, false⟩).1 "order-2" = some ⟨"order-2", [], 1⟩ ∧
    EventBuffer.clearBuffer
      (EventBuffer.addEvent EventBuffer.okCb EventBuffer.emptyBuffers
        ⟨"a", "order-2", 1, false⟩).1 "order-2" "order-2" = none ∧
    EventBuffer.lookupOrCreate
      (EventBuffer.clearBuffer
        (EventBuffer.addEvent EventBuffer.okCb EventBuffer.emptyBuffers
          ⟨"a", "order-2", 1, false⟩).1 "order-2") "order-2" = ⟨"order-2", [], 0⟩ ∧
    (EventBuffer.addEvent EventBuffer.okCb
      (EventBuffer.clearBuffer
        (EventBuffer.addEvent EventBuffer.okCb EventBuffer.emptyBuffers
          ⟨"a", "order-2", 1, false⟩).1 "order-2") ⟨"a", "order-2", 1, false⟩).2 =
      [(⟨"a", "order-2", 1, true⟩, true)] ∧
    (EventBuffer.addEvent EventBuffer.okCb
      (EventBuffer.clearBuffer
        (EventBuffer.addEvent EventBuffer.okCb EventBuffer.emptyBuffers
          ⟨"a", "order-2", 1, false⟩).1 "order-2") ⟨"a", "order-2", 1, false⟩).1 "order-2" =
      some ⟨"order-2", [], 1⟩ :=
  C10_clear_loses_watermark "order-2"
